import Mathlib

/-!
Verification development for `orch_api.py`, a thin client for an
orchestration REST API (asset management, queue management, OAuth token
acquisition).  The Python class `OrchApi` is shallowly embedded: JSON
values become an inductive `JVal`, Python dicts become association lists
with Python update semantics, HTTP traffic is modelled by a `net`
function from requests to responses, and each method returns its result
(`Except` models raised exceptions), the list of HTTP requests it
issued, and the post-state of the client object.
-/

/-- JSON-compatible Python values, as they appear in request/response
bodies of `orch_api.py`. -/
inductive JVal where
  | jnull : JVal
  | jbool : Bool → JVal
  | jint : Int → JVal
  | jstr : String → JVal
  | jarr : List JVal → JVal
  | jobj : List (String × JVal) → JVal

mutual

/-- Python `repr()` on JSON-compatible values.  Scalars are exact
(`repr(True) = "True"`, `repr(None) = "None"`, integers print as in
Python); strings are wrapped in single quotes (Python's escaping of
special characters inside the quotes is not reproduced); lists and
dicts recurse as Python's `repr` does. -/
def pyRepr : JVal → String
  | JVal.jnull => "None"
  | JVal.jbool b => if b then "True" else "False"
  | JVal.jint n => toString n
  | JVal.jstr s => "\x27" ++ s ++ "\x27"
  | JVal.jarr xs => "[" ++ pyReprList xs ++ "]"
  | JVal.jobj kvs => "\x7b" ++ pyReprItems kvs ++ "\x7d"

/-- Comma-separated `repr` of list elements. -/
def pyReprList : List JVal → String
  | [] => ""
  | [x] => pyRepr x
  | x :: rest => pyRepr x ++ ", " ++ pyReprList rest

/-- Comma-separated `repr` of dict items. -/
def pyReprItems : List (String × JVal) → String
  | [] => ""
  | [(k, v)] => "\x27" ++ k ++ "\x27: " ++ pyRepr v
  | (k, v) :: rest => "\x27" ++ k ++ "\x27: " ++ pyRepr v ++ ", " ++ pyReprItems rest

end

/-- Python `str()`: identical to `repr()` except on strings, where it
returns the string itself. -/
def pyStr : JVal → String
  | JVal.jstr s => s
  | v => pyRepr v

/-- One character of Python `str.lower()`: ASCII uppercase letters map
to lowercase, all else unchanged (all uses in the source are on
`"True"`/`"False"`). -/
def pyLowerChar (c : Char) : Char :=
  if c.toNat ≥ 65 ∧ c.toNat ≤ 90 then Char.ofNat (c.toNat + 32) else c

/-- Python `str.lower()`, modelled on ASCII. -/
def pyLower (s : String) : String := String.mk (s.data.map pyLowerChar)

/-- Python dict lookup `d[k]` on an association list: the value at the
first (for a genuine dict, only) occurrence of the key. -/
def pyLookup : List (String × JVal) → String → Option JVal
  | [], _ => none
  | (k, v) :: rest, key => if k = key then some v else pyLookup rest key

/-- Python dict item assignment `d[k] = v`: replace the value at the
first occurrence of the key in place, or append the binding at the end
when the key is absent. -/
def dictSet : List (String × JVal) → String → JVal → List (String × JVal)
  | [], key, v => [(key, v)]
  | (k, w) :: rest, key, v =>
    if k = key then (k, v) :: rest else (k, w) :: dictSet rest key v

/-- Python `d.update(kwargs)`: fold the overrides into the dict, each
one with `dictSet` semantics (overrides win on key collision). -/
def dictUpdate (d : List (String × JVal)) (kvs : List (String × JVal)) :
    List (String × JVal) :=
  kvs.foldl (fun acc p => dictSet acc p.1 p.2) d

/-- Subscripting a JSON value: `access["access_token"]` succeeds only on
an object containing the key. -/
def jGet : JVal → String → Option JVal
  | JVal.jobj kvs, k => pyLookup kvs k
  | _, _ => none

/-- An outgoing HTTP request as `requests.post/get/delete` would see it. -/
structure Request where
  method : String
  url : String
  headers : List (String × String)
  body : Option JVal

/-- An HTTP response.  `json` is `some v` when the body text parses as
JSON (what `response.json()` returns) and `none` when it does not (in
which case `response.json()` raises). -/
structure Response where
  status_code : Nat
  text : String
  json : Option JVal

/-- `CONTENT_TYPE_JSON` from the source. -/
def CONTENT_TYPE_JSON : String := "application/json"

/-- The state of a constructed `OrchApi` client: the fields `__init__`
stores on `self`. -/
structure OrchApi where
  base_url : String
  access_token : JVal

/-- Outcome of one method call: the returned value or raised error, the
HTTP requests issued during the call, and the client state afterwards. -/
structure RunResult (α : Type) where
  result : Except String α
  issued : List Request
  post : OrchApi

/-- The token-exchange request `__init__` POSTs. -/
def tokenRequest (client_id refresh_token tokenurl : String) : Request :=
  { method := "POST"
    url := tokenurl
    headers := [("Authorization", "Bearer"), ("Content-Type", CONTENT_TYPE_JSON)]
    body := some (JVal.jobj
      [("grant_type", JVal.jstr "refresh_token"),
       ("client_id", JVal.jstr client_id),
       ("refresh_token", JVal.jstr refresh_token)]) }

/-- `OrchApi.__init__`: POST the refresh-token grant, then
`access = response.json()` (which raises on a non-JSON body — modelled
as the parse-error result), then on status 200 store
`access["access_token"]`, otherwise raise `ValueError` with the status
code and response text.  The default of `tokenurl` in the source is
`"https://account.uipath.com/oauth/token"`. -/
def OrchApi.init (client_id refresh_token base_url tokenurl : String)
    (net : Request → Response) : Except String OrchApi :=
  let response := net (tokenRequest client_id refresh_token tokenurl)
  match response.json with
  | none => Except.error "Failed to parse response body as JSON"
  | some access =>
    if response.status_code = 200 then
      match jGet access "access_token" with
      | some tok => Except.ok { base_url := base_url, access_token := tok }
      | none => Except.error "KeyError: access_token"
    else
      Except.error ("Failed to retrieve access token. Status code: "
        ++ toString response.status_code ++ ". Response: " ++ response.text)

/-- The uniform success/raise pattern of the four methods that return
`response.json(), response`: on the expected status code parse the body
(a non-JSON body makes `response.json()` raise), otherwise raise
`ValueError` with the message prefix, status code and response text. -/
def respInterpret (success_code : Nat) (failMsg : String) (response : Response) :
    Except String (JVal × Response) :=
  if response.status_code = success_code then
    match response.json with
    | some j => Except.ok (j, response)
    | none => Except.error "Failed to parse response body as JSON"
  else
    Except.error (failMsg ++ " Status code: " ++ toString response.status_code
      ++ ". Response: " ++ response.text)

/-- The GET request of `get_all_assets`. -/
def getAllAssetsRequest (self : OrchApi) : Request :=
  { method := "GET"
    url := self.base_url
      ++ "/odata/Assets/UiPath.Server.Configuration.OData.GetAssetsAcrossFolders"
    headers :=
      [("Authorization", "Bearer " ++ pyStr self.access_token),
       ("Content-Type", "application/json;odata.metadata=minimal;odata.streaming=True"),
       ("accept", CONTENT_TYPE_JSON)]
    body := none }

/-- `OrchApi.get_all_assets`. -/
def OrchApi.get_all_assets (self : OrchApi) (net : Request → Response) :
    RunResult (JVal × Response) :=
  let req := getAllAssetsRequest self
  { result := respInterpret 200 "Failed to retrieve assets." (net req)
    issued := [req]
    post := self }

/-- The GET request of `get_assets_by_key`. -/
def getAssetsByKeyRequest (self : OrchApi) (key id : Int) : Request :=
  { method := "GET"
    url := self.base_url ++ "/odata/Assets(" ++ toString key ++ ")"
    headers :=
      [("Authorization", "Bearer " ++ pyStr self.access_token),
       ("X-UIPATH-OrganizationUnitId", toString id),
       ("accept", CONTENT_TYPE_JSON)]
    body := none }

/-- `OrchApi.get_assets_by_key`. -/
def OrchApi.get_assets_by_key (self : OrchApi) (key id : Int)
    (net : Request → Response) : RunResult (JVal × Response) :=
  let req := getAssetsByKeyRequest self key id
  { result := respInterpret 200 "Failed to retrieve assets." (net req)
    issued := [req]
    post := self }

/-- The DELETE request of `delete_asset`. -/
def deleteAssetRequest (self : OrchApi) (key id : Int) : Request :=
  { method := "DELETE"
    url := self.base_url ++ "/odata/Assets(" ++ toString key ++ ")"
    headers :=
      [("Authorization", "Bearer " ++ pyStr self.access_token),
       ("X-UIPATH-OrganizationUnitId", toString id),
       ("accept", CONTENT_TYPE_JSON)]
    body := none }

/-- `OrchApi.delete_asset`: status 204 returns normally (the source just
prints a confirmation), any other status raises `ValueError` with the
status code and response text. -/
def OrchApi.delete_asset (self : OrchApi) (key id : Int)
    (net : Request → Response) : RunResult Unit :=
  let req := deleteAssetRequest self key id
  let response := net req
  { result :=
      if response.status_code = 204 then Except.ok ()
      else
        Except.error ("Failed to delete asset. Status code: "
          ++ toString response.status_code ++ ". Response: " ++ response.text)
    issued := [req]
    post := self }

/-- The base asset body dict of `create_asset`, in the source's
insertion order: every field present, the generic `"Value"` field set to
`str(value)`, and the type-specific fields at their defaults. -/
def assetBaseBody (name : String) (value : JVal)
    (value_type value_scope description : String) : List (String × JVal) :=
  [("Name", JVal.jstr name),
   ("CanBeDeleted", JVal.jbool true),
   ("ValueScope", JVal.jstr value_scope),
   ("ValueType", JVal.jstr value_type),
   ("Value", JVal.jstr (pyStr value)),
   ("StringValue", JVal.jstr ""),
   ("BoolValue", JVal.jbool false),
   ("IntValue", JVal.jint 0),
   ("CredentialUsername", JVal.jstr ""),
   ("CredentialPassword", JVal.jstr ""),
   ("ExternalName", JVal.jstr ""),
   ("CredentialStoreId", JVal.jint 0),
   ("KeyValueList", JVal.jarr []),
   ("HasDefaultValue", JVal.jbool false),
   ("Description", JVal.jstr description),
   ("RobotValues", JVal.jarr []),
   ("UserValues", JVal.jarr []),
   ("Tags", JVal.jarr [])]

/-- The asset body after the `value_type` branch of `create_asset` has
overwritten the type-specific fields of the base dict.  `username` and
`password` default to `None` in the source. -/
def createAssetBody (name : String) (value : JVal)
    (value_type value_scope description : String)
    (username password : JVal) : List (String × JVal) :=
  let body := assetBaseBody name value value_type value_scope description
  if value_type = "Integer" then
    dictSet body "IntValue" value
  else if value_type = "Boolean" then
    dictSet (dictSet body "BoolValue" value) "Value"
      (JVal.jstr (pyLower (pyStr value)))
  else if value_type = "String" then
    dictSet body "StringValue" value
  else if value_type = "Credential" then
    dictSet (dictSet body "CredentialUsername" username)
      "CredentialPassword" password
  else
    body

/-- The POST request of `create_asset` (built only after the
`value_type` validation has passed). -/
def createAssetRequest (self : OrchApi) (id : Int) (name : String)
    (value : JVal) (value_type value_scope description : String)
    (username password : JVal) : Request :=
  { method := "POST"
    url := self.base_url ++ "/odata/Assets"
    headers :=
      [("Authorization", "Bearer " ++ pyStr self.access_token),
       ("X-UIPATH-OrganizationUnitId", toString id),
       ("accept", CONTENT_TYPE_JSON)]
    body := some (JVal.jobj
      (createAssetBody name value value_type value_scope description
        username password)) }

/-- `OrchApi.create_asset`: validate `value_type` first (raising before
any request is built or sent), then POST the typed body; 201 is the
only success status.  Source defaults: `value_scope = "Global"`,
`description = "using api"`, `username = password = None`. -/
def OrchApi.create_asset (self : OrchApi) (id : Int) (name : String)
    (value : JVal) (value_type value_scope description : String)
    (username password : JVal) (net : Request → Response) :
    RunResult (JVal × Response) :=
  if value_type ∉ (["Integer", "Boolean", "String", "Credential"] : List String) then
    { result := Except.error
        "Invalid value_type. Expected \x27Integer\x27, \x27Boolean\x27, \x27String\x27, or \x27Credential\x27."
      issued := []
      post := self }
  else
    let req := createAssetRequest self id name value value_type value_scope
      description username password
    { result := respInterpret 201 "Failed to create asset." (net req)
      issued := [req]
      post := self }

/-- The `itemData` sub-object of `add_queue_item`. -/
def queueItemData (queue_name : String) (priority : String)
    (specific_content : JVal) : JVal :=
  JVal.jobj
    [("Name", JVal.jstr queue_name),
     ("Priority", JVal.jstr priority),
     ("SpecificContent", specific_content)]

/-- The body dict of `add_queue_item`: `{"itemData": {...}}` updated
with the caller's `**kwargs` at the top level. -/
def addQueueItemBody (queue_name : String) (specific_content : JVal)
    (priority : String) (kwargs : List (String × JVal)) :
    List (String × JVal) :=
  dictUpdate [("itemData", queueItemData queue_name priority specific_content)]
    kwargs

/-- The POST request of `add_queue_item`. -/
def addQueueItemRequest (self : OrchApi) (id : Int) (queue_name : String)
    (specific_content : JVal) (priority : String)
    (kwargs : List (String × JVal)) : Request :=
  { method := "POST"
    url := self.base_url ++ "/odata/Queues/UiPathODataSvc.AddQueueItem"
    headers :=
      [("Authorization", "Bearer " ++ pyStr self.access_token),
       ("X-UIPATH-OrganizationUnitId", toString id),
       ("accept", CONTENT_TYPE_JSON)]
    body := some (JVal.jobj
      (addQueueItemBody queue_name specific_content priority kwargs)) }

/-- `OrchApi.add_queue_item`: POST the item body; 201 is the only
success status.  Source default: `priority = "Normal"`; `kwargs` is the
`**kwargs` dict in its Python iteration order. -/
def OrchApi.add_queue_item (self : OrchApi) (id : Int) (queue_name : String)
    (specific_content : JVal) (priority : String)
    (kwargs : List (String × JVal)) (net : Request → Response) :
    RunResult (JVal × Response) :=
  let req := addQueueItemRequest self id queue_name specific_content priority
    kwargs
  { result := respInterpret 201 "Failed to create queue item." (net req)
    issued := [req]
    post := self }

/-- The body dict of `create_queue`: `{"Name": ..., "Description": ...}`
updated with the caller's `**kwargs`. -/
def createQueueBody (name description : String)
    (kwargs : List (String × JVal)) : List (String × JVal) :=
  dictUpdate [("Name", JVal.jstr name), ("Description", JVal.jstr description)]
    kwargs

/-- The POST request of `create_queue`. -/
def createQueueRequest (self : OrchApi) (id : Int) (name description : String)
    (kwargs : List (String × JVal)) : Request :=
  { method := "POST"
    url := self.base_url ++ "/odata/QueueDefinitions"
    headers :=
      [("Authorization", "Bearer " ++ pyStr self.access_token),
       ("X-UIPATH-OrganizationUnitId", toString id),
       ("accept", CONTENT_TYPE_JSON)]
    body := some (JVal.jobj (createQueueBody name description kwargs)) }

/-- `OrchApi.create_queue`: POST the queue-definition body; 201 is the
only success status.  Source default: `description = "created using api"`. -/
def OrchApi.create_queue (self : OrchApi) (id : Int) (name description : String)
    (kwargs : List (String × JVal)) (net : Request → Response) :
    RunResult (JVal × Response) :=
  let req := createQueueRequest self id name description kwargs
  { result := respInterpret 201 "Failed to create queue." (net req)
    issued := [req]
    post := self }

/-! ### Lemmas about the Python dict operations -/

theorem dictUpdate_nil (d : List (String × JVal)) : dictUpdate d [] = d := rfl

theorem dictUpdate_cons (d : List (String × JVal)) (p : String × JVal)
    (rest : List (String × JVal)) :
    dictUpdate d (p :: rest) = dictUpdate (dictSet d p.1 p.2) rest := rfl

theorem pyLookup_dictSet_self (d : List (String × JVal)) (k : String) (v : JVal) :
    pyLookup (dictSet d k v) k = some v := by
  induction d with
  | nil => simp [dictSet, pyLookup]
  | cons p rest ih =>
    obtain ⟨k0, w⟩ := p
    by_cases h : k0 = k
    · simp [dictSet, h, pyLookup]
    · simp [dictSet, h, pyLookup, ih]

theorem pyLookup_dictSet_ne (d : List (String × JVal)) (k : String) (v : JVal)
    (k2 : String) (h : k2 ≠ k) :
    pyLookup (dictSet d k v) k2 = pyLookup d k2 := by
  induction d with
  | nil => simp [dictSet, pyLookup, Ne.symm h]
  | cons p rest ih =>
    obtain ⟨k0, w⟩ := p
    by_cases h0 : k0 = k
    · subst h0
      simp [dictSet, pyLookup, Ne.symm h]
    · by_cases h2 : k0 = k2
      · simp [dictSet, h0, h, pyLookup, h2]
      · simp [dictSet, h0, h, pyLookup, h2, ih]

theorem pyLookup_dictUpdate_not_mem (kvs : List (String × JVal))
    (d : List (String × JVal)) (k : String) (h : k ∉ kvs.map Prod.fst) :
    pyLookup (dictUpdate d kvs) k = pyLookup d k := by
  induction kvs generalizing d with
  | nil => rfl
  | cons p rest ih =>
    rw [List.map_cons] at h
    rw [dictUpdate_cons, ih _ fun hk => h (List.mem_cons_of_mem _ hk)]
    exact pyLookup_dictSet_ne d p.1 p.2 k
      fun e => h (by rw [e]; exact List.mem_cons_self _ _)

theorem pyLookup_dictUpdate_mem (kvs : List (String × JVal))
    (d : List (String × JVal)) (k : String) (v : JVal)
    (hnd : (kvs.map Prod.fst).Nodup) (h : (k, v) ∈ kvs) :
    pyLookup (dictUpdate d kvs) k = some v := by
  induction kvs generalizing d with
  | nil => exact absurd h (List.not_mem_nil _)
  | cons p rest ih =>
    rw [List.map_cons, List.nodup_cons] at hnd
    rcases List.mem_cons.mp h with hhead | htail
    · subst hhead
      rw [dictUpdate_cons]
      rw [pyLookup_dictUpdate_not_mem rest _ k hnd.1]
      exact pyLookup_dictSet_self d k v
    · rw [dictUpdate_cons]
      exact ih _ hnd.2 htail

/-! ### Reduction of `createAssetBody` at each value-type tag -/

theorem createAssetBody_integer (name : String) (value : JVal)
    (value_scope description : String) (username password : JVal) :
    createAssetBody name value "Integer" value_scope description username password
      = dictSet (assetBaseBody name value "Integer" value_scope description)
          "IntValue" value := by
  simp [createAssetBody]

theorem createAssetBody_boolean (name : String) (value : JVal)
    (value_scope description : String) (username password : JVal) :
    createAssetBody name value "Boolean" value_scope description username password
      = dictSet
          (dictSet (assetBaseBody name value "Boolean" value_scope description)
            "BoolValue" value)
          "Value" (JVal.jstr (pyLower (pyStr value))) := by
  simp [createAssetBody]

theorem createAssetBody_string (name : String) (value : JVal)
    (value_scope description : String) (username password : JVal) :
    createAssetBody name value "String" value_scope description username password
      = dictSet (assetBaseBody name value "String" value_scope description)
          "StringValue" value := by
  simp [createAssetBody]

theorem createAssetBody_credential (name : String) (value : JVal)
    (value_scope description : String) (username password : JVal) :
    createAssetBody name value "Credential" value_scope description username password
      = dictSet
          (dictSet (assetBaseBody name value "Credential" value_scope description)
            "CredentialUsername" username)
          "CredentialPassword" password := by
  simp [createAssetBody]

/-! ### Claims about typed asset-body construction -/

/-- C1: for every call to `create_asset` with a value-type tag in
`{Integer, Boolean, String, Credential}`, the constructed request body
populates exactly the fields specified for that tag (`IntValue` for
Integer; `BoolValue` and the string `"Value"` for Boolean; `StringValue`
for String; `CredentialUsername`/`CredentialPassword` for Credential)
and leaves every other field of the fixed schema at the value the base
schema dict gives it. -/
theorem create_asset_body_exact_fields (name : String) (value : JVal)
    (value_scope description : String) (username password : JVal) :
    (pyLookup (createAssetBody name value "Integer" value_scope description
        username password) "IntValue" = some value
      ∧ ∀ k : String, k ≠ "IntValue" →
        pyLookup (createAssetBody name value "Integer" value_scope description
          username password) k
          = pyLookup (assetBaseBody name value "Integer" value_scope description) k)
    ∧ (pyLookup (createAssetBody name value "Boolean" value_scope description
        username password) "BoolValue" = some value
      ∧ pyLookup (createAssetBody name value "Boolean" value_scope description
          username password) "Value" = some (JVal.jstr (pyLower (pyStr value)))
      ∧ ∀ k : String, k ≠ "BoolValue" → k ≠ "Value" →
        pyLookup (createAssetBody name value "Boolean" value_scope description
          username password) k
          = pyLookup (assetBaseBody name value "Boolean" value_scope description) k)
    ∧ (pyLookup (createAssetBody name value "String" value_scope description
        username password) "StringValue" = some value
      ∧ ∀ k : String, k ≠ "StringValue" →
        pyLookup (createAssetBody name value "String" value_scope description
          username password) k
          = pyLookup (assetBaseBody name value "String" value_scope description) k)
    ∧ (pyLookup (createAssetBody name value "Credential" value_scope description
        username password) "CredentialUsername" = some username
      ∧ pyLookup (createAssetBody name value "Credential" value_scope description
          username password) "CredentialPassword" = some password
      ∧ ∀ k : String, k ≠ "CredentialUsername" → k ≠ "CredentialPassword" →
        pyLookup (createAssetBody name value "Credential" value_scope description
          username password) k
          = pyLookup (assetBaseBody name value "Credential" value_scope description) k) := by
  rw [createAssetBody_integer, createAssetBody_boolean, createAssetBody_string,
    createAssetBody_credential]
  refine ⟨⟨?_, ?_⟩, ⟨?_, ?_, ?_⟩, ⟨?_, ?_⟩, ⟨?_, ?_, ?_⟩⟩
  · exact pyLookup_dictSet_self _ _ _
  · intro k hk
    exact pyLookup_dictSet_ne _ _ _ _ hk
  · rw [pyLookup_dictSet_ne _ _ _ _ (by decide : ("BoolValue" : String) ≠ "Value")]
    exact pyLookup_dictSet_self _ _ _
  · exact pyLookup_dictSet_self _ _ _
  · intro k hk1 hk2
    rw [pyLookup_dictSet_ne _ _ _ _ hk2]
    exact pyLookup_dictSet_ne _ _ _ _ hk1
  · exact pyLookup_dictSet_self _ _ _
  · intro k hk
    exact pyLookup_dictSet_ne _ _ _ _ hk
  · rw [pyLookup_dictSet_ne _ _ _ _
      (by decide : ("CredentialUsername" : String) ≠ "CredentialPassword")]
    exact pyLookup_dictSet_self _ _ _
  · exact pyLookup_dictSet_self _ _ _
  · intro k hk1 hk2
    rw [pyLookup_dictSet_ne _ _ _ _ hk2]
    exact pyLookup_dictSet_ne _ _ _ _ hk1

/-- C1 witness: concrete Integer-typed asset body; the `IntValue` field
carries the value and the untouched `Description` field matches the base
schema. -/
theorem create_asset_body_exact_fields_witness :
    pyLookup (createAssetBody "n" (JVal.jint 5) "Integer" "Global" "using api"
      JVal.jnull JVal.jnull) "IntValue" = some (JVal.jint 5)
    ∧ pyLookup (createAssetBody "n" (JVal.jint 5) "Integer" "Global" "using api"
        JVal.jnull JVal.jnull) "Description"
      = pyLookup (assetBaseBody "n" (JVal.jint 5) "Integer" "Global" "using api")
          "Description" :=
  ⟨(create_asset_body_exact_fields "n" (JVal.jint 5) "Global" "using api"
      JVal.jnull JVal.jnull).1.1,
   (create_asset_body_exact_fields "n" (JVal.jint 5) "Global" "using api"
      JVal.jnull JVal.jnull).1.2 "Description" (by decide)⟩

/-- C2: a Boolean asset body built from the boolean `true` has
`BoolValue = true` and generic string field `"Value" = "true"`
(lowercase); built from `false`, it has `BoolValue = false` and
`"Value" = "false"`. -/
theorem create_asset_boolean_dual_encoding (name : String)
    (value_scope description : String) (username password : JVal) :
    pyLookup (createAssetBody name (JVal.jbool true) "Boolean" value_scope
      description username password) "BoolValue" = some (JVal.jbool true)
    ∧ pyLookup (createAssetBody name (JVal.jbool true) "Boolean" value_scope
        description username password) "Value" = some (JVal.jstr "true")
    ∧ pyLookup (createAssetBody name (JVal.jbool false) "Boolean" value_scope
        description username password) "BoolValue" = some (JVal.jbool false)
    ∧ pyLookup (createAssetBody name (JVal.jbool false) "Boolean" value_scope
        description username password) "Value" = some (JVal.jstr "false") := by
  rw [createAssetBody_boolean, createAssetBody_boolean]
  refine ⟨?_, ?_, ?_, ?_⟩
  · rw [pyLookup_dictSet_ne _ _ _ _ (by decide : ("BoolValue" : String) ≠ "Value")]
    exact pyLookup_dictSet_self _ _ _
  · exact pyLookup_dictSet_self _ _ _
  · rw [pyLookup_dictSet_ne _ _ _ _ (by decide : ("BoolValue" : String) ≠ "Value")]
    exact pyLookup_dictSet_self _ _ _
  · exact pyLookup_dictSet_self _ _ _

/-- C9 (implicit): the base asset body sets the generic `"Value"` field
to `str(value)` for every value type, so Integer, String and Credential
bodies carry `str(value)` there (not the empty string); only the Boolean
branch overwrites it, with the lowercase string form. -/
theorem create_asset_generic_value_field (name : String) (value : JVal)
    (value_type value_scope description : String) (username password : JVal) :
    pyLookup (assetBaseBody name value value_type value_scope description)
      "Value" = some (JVal.jstr (pyStr value))
    ∧ pyLookup (createAssetBody name value "Integer" value_scope description
        username password) "Value" = some (JVal.jstr (pyStr value))
    ∧ pyLookup (createAssetBody name value "String" value_scope description
        username password) "Value" = some (JVal.jstr (pyStr value))
    ∧ pyLookup (createAssetBody name value "Credential" value_scope description
        username password) "Value" = some (JVal.jstr (pyStr value))
    ∧ pyLookup (createAssetBody name value "Boolean" value_scope description
        username password) "Value" = some (JVal.jstr (pyLower (pyStr value))) := by
  have hbase : ∀ vt : String,
      pyLookup (assetBaseBody name value vt value_scope description) "Value"
        = some (JVal.jstr (pyStr value)) := by
    intro vt
    simp [assetBaseBody, pyLookup]
  rw [createAssetBody_integer, createAssetBody_string, createAssetBody_credential,
    createAssetBody_boolean]
  refine ⟨hbase value_type, ?_, ?_, ?_, ?_⟩
  · rw [pyLookup_dictSet_ne _ _ _ _ (by decide : ("Value" : String) ≠ "IntValue")]
    exact hbase "Integer"
  · rw [pyLookup_dictSet_ne _ _ _ _ (by decide : ("Value" : String) ≠ "StringValue")]
    exact hbase "String"
  · rw [pyLookup_dictSet_ne _ _ _ _
      (by decide : ("Value" : String) ≠ "CredentialPassword")]
    rw [pyLookup_dictSet_ne _ _ _ _
      (by decide : ("Value" : String) ≠ "CredentialUsername")]
    exact hbase "Credential"
  · exact pyLookup_dictSet_self _ _ _

/-! ### Claims about queue bodies, validation, and response handling -/

/-- C3: for both `create_queue` and `add_queue_item`, a caller-supplied
override binding (its key unique within the override dict, as Python
dict keys are) takes precedence over any base field of the same name in
the final body — in particular when the key collides with a base field
such as `"Name"`. -/
theorem queue_overrides_take_precedence (name description queue_name priority :
    String) (specific_content : JVal) (kwargs : List (String × JVal))
    (k : String) (v : JVal) (hnd : (kwargs.map Prod.fst).Nodup)
    (h : (k, v) ∈ kwargs) :
    pyLookup (createQueueBody name description kwargs) k = some v
    ∧ pyLookup (addQueueItemBody queue_name specific_content priority kwargs) k
      = some v :=
  ⟨pyLookup_dictUpdate_mem kwargs _ k v hnd h,
   pyLookup_dictUpdate_mem kwargs _ k v hnd h⟩

/-- C3 witness: the override `Name = "X"` beats the base `Name` field in
both queue bodies. -/
theorem queue_overrides_take_precedence_witness :
    pyLookup (createQueueBody "q" "created using api" [("Name", JVal.jstr "X")])
      "Name" = some (JVal.jstr "X")
    ∧ pyLookup (addQueueItemBody "q" (JVal.jobj []) "Normal"
        [("Name", JVal.jstr "X")]) "Name" = some (JVal.jstr "X") :=
  queue_overrides_take_precedence "q" "created using api" "q" "Normal"
    (JVal.jobj []) [("Name", JVal.jstr "X")] "Name" (JVal.jstr "X")
    (by decide) (List.mem_cons_self _ _)

/-- C8: `add_queue_item` merges overrides only at the top level of the
body: when no override key is `"itemData"`, the `itemData` sub-object is
exactly `{Name: queue_name, Priority: priority, SpecificContent:
specific_content}`; an override keyed `"itemData"` replaces the whole
sub-object. -/
theorem add_queue_item_overrides_top_level_only (queue_name priority : String)
    (specific_content : JVal) (kwargs : List (String × JVal)) :
    ((∀ p ∈ kwargs, p.1 ≠ "itemData") →
      pyLookup (addQueueItemBody queue_name specific_content priority kwargs)
        "itemData" = some (queueItemData queue_name priority specific_content))
    ∧ ∀ v : JVal, (kwargs.map Prod.fst).Nodup → ("itemData", v) ∈ kwargs →
      pyLookup (addQueueItemBody queue_name specific_content priority kwargs)
        "itemData" = some v := by
  constructor
  · intro h
    unfold addQueueItemBody
    rw [pyLookup_dictUpdate_not_mem kwargs _ _ fun hmem => by
      obtain ⟨p, hp, hpe⟩ := List.mem_map.mp hmem
      exact h p hp hpe]
    simp [pyLookup]
  · intro v hnd hmem
    exact pyLookup_dictUpdate_mem kwargs _ _ v hnd hmem

/-- C8 witness: a sibling override `Reference = "r"` leaves `itemData`
intact, while an override keyed `itemData` replaces it wholesale. -/
theorem add_queue_item_overrides_top_level_only_witness :
    pyLookup (addQueueItemBody "q" (JVal.jobj []) "Normal"
      [("Reference", JVal.jstr "r")]) "itemData"
      = some (queueItemData "q" "Normal" (JVal.jobj []))
    ∧ pyLookup (addQueueItemBody "q" (JVal.jobj []) "Normal"
        [("itemData", JVal.jstr "zap")]) "itemData" = some (JVal.jstr "zap") :=
  ⟨(add_queue_item_overrides_top_level_only "q" "Normal" (JVal.jobj [])
      [("Reference", JVal.jstr "r")]).1 fun p hp => by
        rw [List.mem_singleton] at hp
        rw [hp]
        decide,
   (add_queue_item_overrides_top_level_only "q" "Normal" (JVal.jobj [])
      [("itemData", JVal.jstr "zap")]).2 (JVal.jstr "zap") (by decide)
      (List.mem_cons_self _ _)⟩

/-- C5: `create_asset` with a `value_type` outside
`{Integer, Boolean, String, Credential}` raises the validation
`ValueError` and issues no HTTP request. -/
theorem create_asset_invalid_type_no_request (c : OrchApi) (id : Int)
    (name : String) (value : JVal) (value_type value_scope description : String)
    (username password : JVal) (net : Request → Response)
    (h : value_type ∉ (["Integer", "Boolean", "String", "Credential"] : List String)) :
    (c.create_asset id name value value_type value_scope description username
      password net).result = Except.error
        "Invalid value_type. Expected \x27Integer\x27, \x27Boolean\x27, \x27String\x27, or \x27Credential\x27."
    ∧ (c.create_asset id name value value_type value_scope description username
        password net).issued = [] := by
  unfold OrchApi.create_asset
  rw [if_pos h]
  exact ⟨rfl, rfl⟩

/-- C5 witness: `value_type = "Float"` is rejected with the validation
error and an empty request trace. -/
theorem create_asset_invalid_type_no_request_witness :
    (OrchApi.create_asset ⟨"http://o", JVal.jstr "t"⟩ 1 "n" (JVal.jint 0)
      "Float" "Global" "using api" JVal.jnull JVal.jnull
      (fun _ => ⟨200, "", none⟩)).result = Except.error
        "Invalid value_type. Expected \x27Integer\x27, \x27Boolean\x27, \x27String\x27, or \x27Credential\x27."
    ∧ (OrchApi.create_asset ⟨"http://o", JVal.jstr "t"⟩ 1 "n" (JVal.jint 0)
        "Float" "Global" "using api" JVal.jnull JVal.jnull
        (fun _ => ⟨200, "", none⟩)).issued = [] :=
  create_asset_invalid_type_no_request ⟨"http://o", JVal.jstr "t"⟩ 1 "n"
    (JVal.jint 0) "Float" "Global" "using api" JVal.jnull JVal.jnull
    (fun _ => ⟨200, "", none⟩) (by decide)

/-- C7: `delete_asset` succeeds exactly when the response status is 204,
and any other status raises `ValueError` carrying that status code and
the response body text. -/
theorem delete_asset_status_semantics (c : OrchApi) (key id : Int)
    (net : Request → Response) :
    ((c.delete_asset key id net).result = Except.ok ()
      ↔ (net (deleteAssetRequest c key id)).status_code = 204)
    ∧ ((net (deleteAssetRequest c key id)).status_code ≠ 204 →
      (c.delete_asset key id net).result = Except.error
        ("Failed to delete asset. Status code: "
          ++ toString (net (deleteAssetRequest c key id)).status_code
          ++ ". Response: " ++ (net (deleteAssetRequest c key id)).text)) := by
  unfold OrchApi.delete_asset
  by_cases h : (net (deleteAssetRequest c key id)).status_code = 204 <;>
    simp [h]

/-- C7 witness: a 404 response makes `delete_asset` raise with the
status and body. -/
theorem delete_asset_status_semantics_witness :
    (OrchApi.delete_asset ⟨"http://o", JVal.jstr "t"⟩ 1 2
      (fun _ => ⟨404, "not found", none⟩)).result
      = Except.error "Failed to delete asset. Status code: 404. Response: not found" :=
  (delete_asset_status_semantics ⟨"http://o", JVal.jstr "t"⟩ 1 2
    (fun _ => ⟨404, "not found", none⟩)).2 (by decide)

/-! ### Claims about construction and client state -/

/-- A token-exchange endpoint answering 401 with a body that is not
valid JSON (as a real server's HTML or empty error page would be). -/
def net401NonJson : Request → Response :=
  fun _ => { status_code := 401, text := "Unauthorized", json := none }

/-- C4 counterexample: on a 401 token-exchange response whose body is
not valid JSON, `__init__` evaluates `response.json()` before checking
the status code, so construction fails with a JSON-decode error that
contains neither `"401"` nor the response body text — the claim's
guarantee about the error message does not hold for every 401
response. -/
theorem token_401_message_counterexample :
    (net401NonJson (tokenRequest "cid" "rt" "turl")).status_code = 401
    ∧ OrchApi.init "cid" "rt" "burl" "turl" net401NonJson
      = Except.error "Failed to parse response body as JSON"
    ∧ ¬ ("401".data <:+: "Failed to parse response body as JSON".data)
    ∧ ¬ ((net401NonJson (tokenRequest "cid" "rt" "turl")).text.data
        <:+: "Failed to parse response body as JSON".data) :=
  ⟨rfl, rfl, by decide, by decide⟩

/-- C4 amended: for every token-exchange response whose body parses as
JSON, any non-200 status (401 in particular) makes construction fail —
no client object is produced — with an error message that contains the
status code and the response body text verbatim. -/
theorem token_exchange_failure (client_id refresh_token base_url tokenurl :
    String) (net : Request → Response) (j : JVal)
    (hjson : (net (tokenRequest client_id refresh_token tokenurl)).json = some j)
    (hstatus : (net (tokenRequest client_id refresh_token tokenurl)).status_code ≠ 200) :
    OrchApi.init client_id refresh_token base_url tokenurl net
      = Except.error ("Failed to retrieve access token. Status code: "
          ++ toString (net (tokenRequest client_id refresh_token tokenurl)).status_code
          ++ ". Response: "
          ++ (net (tokenRequest client_id refresh_token tokenurl)).text)
    ∧ (toString (net (tokenRequest client_id refresh_token tokenurl)).status_code).data
      <:+: ("Failed to retrieve access token. Status code: "
          ++ toString (net (tokenRequest client_id refresh_token tokenurl)).status_code
          ++ ". Response: "
          ++ (net (tokenRequest client_id refresh_token tokenurl)).text).data
    ∧ (net (tokenRequest client_id refresh_token tokenurl)).text.data
      <:+: ("Failed to retrieve access token. Status code: "
          ++ toString (net (tokenRequest client_id refresh_token tokenurl)).status_code
          ++ ". Response: "
          ++ (net (tokenRequest client_id refresh_token tokenurl)).text).data := by
  refine ⟨?_, ?_, ?_⟩
  · simp only [OrchApi.init, hjson]
    rw [if_neg hstatus]
  · refine ⟨"Failed to retrieve access token. Status code: ".data,
      (". Response: "
        ++ (net (tokenRequest client_id refresh_token tokenurl)).text).data, ?_⟩
    simp [String.data_append]
  · refine ⟨("Failed to retrieve access token. Status code: "
      ++ toString (net (tokenRequest client_id refresh_token tokenurl)).status_code
      ++ ". Response: ").data, [], ?_⟩
    simp [String.data_append]

/-- C4 witness: a JSON-bodied 401 response yields the exact
`ValueError` message with the status and body. -/
theorem token_exchange_failure_witness :
    OrchApi.init "cid" "rt" "burl" "turl"
      (fun _ => ⟨401, "Unauthorized", some (JVal.jobj [])⟩)
      = Except.error
        "Failed to retrieve access token. Status code: 401. Response: Unauthorized" :=
  (token_exchange_failure "cid" "rt" "burl" "turl"
    (fun _ => ⟨401, "Unauthorized", some (JVal.jobj [])⟩) (JVal.jobj [])
    rfl (by decide)).1

/-- The two headers C6 is about: the bearer token obtained from the
`{"access_token": "abc"}` exchange, and the JSON accept header. -/
def carriesAbcAuthHeaders (r : Request) : Prop :=
  ("Authorization", "Bearer abc") ∈ r.headers
  ∧ ("accept", "application/json") ∈ r.headers

/-- C6: a token exchange answering 200 with body
`{"access_token": "abc"}` yields the client object, and every HTTP
request subsequently issued by any of its six methods carries
`Authorization: Bearer abc` and `accept: application/json`. -/
theorem bearer_token_on_all_requests (client_id refresh_token base_url
    tokenurl : String) (net : Request → Response)
    (hstatus : (net (tokenRequest client_id refresh_token tokenurl)).status_code = 200)
    (hjson : (net (tokenRequest client_id refresh_token tokenurl)).json
      = some (JVal.jobj [("access_token", JVal.jstr "abc")])) :
    OrchApi.init client_id refresh_token base_url tokenurl net
      = Except.ok ⟨base_url, JVal.jstr "abc"⟩
    ∧ (∀ (net2 : Request → Response) (r : Request),
        r ∈ (OrchApi.get_all_assets ⟨base_url, JVal.jstr "abc"⟩ net2).issued →
        carriesAbcAuthHeaders r)
    ∧ (∀ (key id : Int) (net2 : Request → Response) (r : Request),
        r ∈ (OrchApi.get_assets_by_key ⟨base_url, JVal.jstr "abc"⟩ key id
          net2).issued → carriesAbcAuthHeaders r)
    ∧ (∀ (key id : Int) (net2 : Request → Response) (r : Request),
        r ∈ (OrchApi.delete_asset ⟨base_url, JVal.jstr "abc"⟩ key id
          net2).issued → carriesAbcAuthHeaders r)
    ∧ (∀ (id : Int) (name : String) (value : JVal)
        (value_type value_scope description : String) (username password : JVal)
        (net2 : Request → Response) (r : Request),
        r ∈ (OrchApi.create_asset ⟨base_url, JVal.jstr "abc"⟩ id name value
          value_type value_scope description username password net2).issued →
        carriesAbcAuthHeaders r)
    ∧ (∀ (id : Int) (queue_name : String) (specific_content : JVal)
        (priority : String) (kwargs : List (String × JVal))
        (net2 : Request → Response) (r : Request),
        r ∈ (OrchApi.add_queue_item ⟨base_url, JVal.jstr "abc"⟩ id queue_name
          specific_content priority kwargs net2).issued →
        carriesAbcAuthHeaders r)
    ∧ (∀ (id : Int) (name description : String)
        (kwargs : List (String × JVal)) (net2 : Request → Response)
        (r : Request),
        r ∈ (OrchApi.create_queue ⟨base_url, JVal.jstr "abc"⟩ id name
          description kwargs net2).issued → carriesAbcAuthHeaders r) := by
  refine ⟨?_, ?_, ?_, ?_, ?_, ?_, ?_⟩
  · simp only [OrchApi.init, hjson]
    rw [if_pos hstatus]
    rfl
  · intro net2 r hr
    rw [show (OrchApi.get_all_assets ⟨base_url, JVal.jstr "abc"⟩ net2).issued
      = [getAllAssetsRequest ⟨base_url, JVal.jstr "abc"⟩] from rfl,
      List.mem_singleton] at hr
    rw [hr]
    exact ⟨List.Mem.head _, List.Mem.tail _ (List.Mem.tail _ (List.Mem.head _))⟩
  · intro key id net2 r hr
    rw [show (OrchApi.get_assets_by_key ⟨base_url, JVal.jstr "abc"⟩ key id
        net2).issued
      = [getAssetsByKeyRequest ⟨base_url, JVal.jstr "abc"⟩ key id] from rfl,
      List.mem_singleton] at hr
    rw [hr]
    exact ⟨List.Mem.head _, List.Mem.tail _ (List.Mem.tail _ (List.Mem.head _))⟩
  · intro key id net2 r hr
    rw [show (OrchApi.delete_asset ⟨base_url, JVal.jstr "abc"⟩ key id
        net2).issued
      = [deleteAssetRequest ⟨base_url, JVal.jstr "abc"⟩ key id] from rfl,
      List.mem_singleton] at hr
    rw [hr]
    exact ⟨List.Mem.head _, List.Mem.tail _ (List.Mem.tail _ (List.Mem.head _))⟩
  · intro id name value value_type value_scope description username password
      net2 r hr
    by_cases hv : value_type ∈ (["Integer", "Boolean", "String", "Credential"] :
      List String)
    · rw [show (OrchApi.create_asset ⟨base_url, JVal.jstr "abc"⟩ id name value
          value_type value_scope description username password net2).issued
        = [createAssetRequest ⟨base_url, JVal.jstr "abc"⟩ id name value
            value_type value_scope description username password] from by
          unfold OrchApi.create_asset
          rw [if_neg (not_not_intro hv)],
        List.mem_singleton] at hr
      rw [hr]
      exact ⟨List.Mem.head _, List.Mem.tail _ (List.Mem.tail _ (List.Mem.head _))⟩
    · rw [show (OrchApi.create_asset ⟨base_url, JVal.jstr "abc"⟩ id name value
          value_type value_scope description username password net2).issued
        = [] from by
          unfold OrchApi.create_asset
          rw [if_pos hv]] at hr
      exact absurd hr (List.not_mem_nil r)
  · intro id queue_name specific_content priority kwargs net2 r hr
    rw [show (OrchApi.add_queue_item ⟨base_url, JVal.jstr "abc"⟩ id queue_name
        specific_content priority kwargs net2).issued
      = [addQueueItemRequest ⟨base_url, JVal.jstr "abc"⟩ id queue_name
          specific_content priority kwargs] from rfl,
      List.mem_singleton] at hr
    rw [hr]
    exact ⟨List.Mem.head _, List.Mem.tail _ (List.Mem.tail _ (List.Mem.head _))⟩
  · intro id name description kwargs net2 r hr
    rw [show (OrchApi.create_queue ⟨base_url, JVal.jstr "abc"⟩ id name
        description kwargs net2).issued
      = [createQueueRequest ⟨base_url, JVal.jstr "abc"⟩ id name description
          kwargs] from rfl,
      List.mem_singleton] at hr
    rw [hr]
    exact ⟨List.Mem.head _, List.Mem.tail _ (List.Mem.tail _ (List.Mem.head _))⟩

/-- C6 witness: a concrete 200 exchange with `{"access_token": "abc"}`
constructs the client, and the list-all-assets request then carries the
bearer header. -/
theorem bearer_token_on_all_requests_witness :
    OrchApi.init "cid" "rt" "http://o" "turl"
      (fun _ => ⟨200, "", some (JVal.jobj [("access_token", JVal.jstr "abc")])⟩)
      = Except.ok ⟨"http://o", JVal.jstr "abc"⟩
    ∧ ("Authorization", "Bearer abc")
      ∈ (getAllAssetsRequest ⟨"http://o", JVal.jstr "abc"⟩).headers :=
  ⟨(bearer_token_on_all_requests "cid" "rt" "http://o" "turl"
      (fun _ => ⟨200, "", some (JVal.jobj [("access_token", JVal.jstr "abc")])⟩)
      rfl rfl).1,
   ((bearer_token_on_all_requests "cid" "rt" "http://o" "turl"
      (fun _ => ⟨200, "", some (JVal.jobj [("access_token", JVal.jstr "abc")])⟩)
      rfl rfl).2.1
      (fun _ => ⟨200, "", some (JVal.jobj [("access_token", JVal.jstr "abc")])⟩)
      (getAllAssetsRequest ⟨"http://o", JVal.jstr "abc"⟩)
      (List.mem_singleton.mpr rfl)).1⟩

/-- C10 (implicit): every operation after construction leaves the client
state — `base_url` and `access_token` — unchanged, whether the call
succeeds or raises. -/
theorem methods_preserve_client_state (c : OrchApi) (key id : Int)
    (name : String) (value : JVal) (value_type value_scope description : String)
    (username password : JVal) (queue_name priority qname qdescription : String)
    (specific_content : JVal) (kwargs kwargs2 : List (String × JVal))
    (net : Request → Response) :
    (c.get_all_assets net).post = c
    ∧ (c.get_assets_by_key key id net).post = c
    ∧ (c.delete_asset key id net).post = c
    ∧ (c.create_asset id name value value_type value_scope description
        username password net).post = c
    ∧ (c.add_queue_item id queue_name specific_content priority kwargs
        net).post = c
    ∧ (c.create_queue id qname qdescription kwargs2 net).post = c := by
  refine ⟨rfl, rfl, rfl, ?_, rfl, rfl⟩
  unfold OrchApi.create_asset
  split <;> rfl
